import Mathlib

/-
Verification of the robotic sorting core (models.py, object_manager.py,
arm_controller.py).

Embedding conventions:
* Python floats are modelled as real numbers; `x ** 0.5` on a non-negative
  argument is `Real.sqrt`.
* Python ints (zone capacities/counts, retry counters, `max_retries`) are
  modelled as `Int`.
* The registry's `id -> Object` dict is modelled as a list of objects,
  looked up by the `id` field (insertion order, unique keys in any state the
  registry itself builds); in-place mutation of an object becomes an
  id-keyed functional update of that list.
* The stateful methods of `RoboticArmController` and `ObjectManager` become
  explicit state-passing functions: each takes the arm / manager (and, for
  placement, the zone, which Python passes as a shared mutable reference)
  and returns the updated values together with the source's return value.
* The optional `failure_callback` (a stateful zero-argument Python
  callable, invoked once per attempt) is determinized as an
  `Option (Nat -> Bool)` indexed by the attempt number, which in both retry
  loops equals the current retry counter at the moment of the call.
* `time.time()` timestamps are an ambient-clock effect with no influence on
  control flow; the `timestamp` field is left out of the embedding.
-/

open Classical

noncomputable section

namespace RoboSort

/-! ## Data model (models.py) -/

inductive Color
  | red | blue | green | yellow
  deriving DecidableEq

inductive Size
  | small | medium | large
  deriving DecidableEq

inductive ObjectType
  | typeA | typeB | typeC
  deriving DecidableEq

inductive ObjectState
  | inSource | held | inZone
  deriving DecidableEq

inductive OperationType
  | pick | place
  deriving DecidableEq

inductive ErrorType
  | missedPick | collision | zoneFull | objectNotFound | invalidState
  | maxRetriesExceeded
  deriving DecidableEq

structure Position2D where
  x : ℝ
  y : ℝ

-- Position2D.distance_to
def Position2D.distanceTo (p q : Position2D) : ℝ :=
  Real.sqrt ((p.x - q.x) ^ 2 + (p.y - q.y) ^ 2)

structure BoundingBox where
  min : Position2D
  max : Position2D

-- BoundingBox.contains: min.x <= p.x <= max.x and min.y <= p.y <= max.y
def BoundingBox.contains (b : BoundingBox) (p : Position2D) : Bool :=
  decide (b.min.x ≤ p.x ∧ p.x ≤ b.max.x ∧ b.min.y ≤ p.y ∧ p.y ≤ b.max.y)

-- BoundingBox.intersects
def BoundingBox.intersects (b other : BoundingBox) : Bool :=
  !(decide (b.max.x < other.min.x ∨ b.min.x > other.max.x ∨
            b.max.y < other.min.y ∨ b.min.y > other.max.y))

structure SourceArea where
  bounds : BoundingBox
  capacity : ℤ

structure TargetZone where
  id : String
  bounds : BoundingBox
  capacity : ℤ
  criteriaValue : String
  currentCount : ℤ

-- TargetZone.is_full: current_count >= capacity
def TargetZone.isFull (z : TargetZone) : Bool :=
  decide (z.currentCount ≥ z.capacity)

-- TargetZone.add_object: returns (success, updated zone)
def TargetZone.addObject (z : TargetZone) : Bool × TargetZone :=
  if z.isFull then (false, z)
  else (true, { z with currentCount := z.currentCount + 1 })

-- TargetZone.remove_object: returns (success, updated zone)
def TargetZone.removeObject (z : TargetZone) : Bool × TargetZone :=
  if z.currentCount ≤ 0 then (false, z)
  else (true, { z with currentCount := z.currentCount - 1 })

structure Object where
  id : String
  color : Color
  size : Size
  type : ObjectType
  position : Position2D
  state : ObjectState

structure OperationResult where
  success : Bool
  operationType : OperationType
  objectId : Option String
  error : Option ErrorType
  retryCount : ℤ

structure MovementResult where
  success : Bool
  error : Option ErrorType
  finalPosition : Position2D

/-! ## Object manager (object_manager.py) -/

structure ObjectManager where
  objects : List Object
  sourceArea : SourceArea
  targetZones : List TargetZone

-- ObjectManager.get_object: dict lookup by id
def getObject (m : ObjectManager) (oid : String) : Option Object :=
  m.objects.find? (fun o => o.id = oid)

-- ObjectManager.get_available_objects
def getAvailableObjects (m : ObjectManager) : List Object :=
  m.objects.filter (fun o => decide (o.state = ObjectState.inSource))

-- in-place mutation of the object stored under `oid` in the dict
def updateObject (m : ObjectManager) (oid : String) (f : Object → Object) :
    ObjectManager :=
  { m with objects := m.objects.map (fun o => if o.id = oid then f o else o) }

-- geometric center of the source area
def sourceCenter (m : ObjectManager) : Position2D :=
  ⟨(m.sourceArea.bounds.min.x + m.sourceArea.bounds.max.x) / 2,
   (m.sourceArea.bounds.min.y + m.sourceArea.bounds.max.y) / 2⟩

-- geometric center of a zone
def zoneCenter (z : TargetZone) : Position2D :=
  ⟨(z.bounds.min.x + z.bounds.max.x) / 2,
   (z.bounds.min.y + z.bounds.max.y) / 2⟩

-- ObjectManager.remove_from_source
def removeFromSource (m : ObjectManager) (oid : String) :
    Bool × ObjectManager :=
  match getObject m oid with
  | none => (false, m)
  | some o =>
    if o.state ≠ ObjectState.inSource then (false, m)
    else
      (true, updateObject m oid (fun o2 => { o2 with state := ObjectState.held }))

-- ObjectManager.place_in_zone: (success, updated manager, updated zone)
def placeInZone (m : ObjectManager) (oid : String) (zone : TargetZone) :
    Bool × ObjectManager × TargetZone :=
  match getObject m oid with
  | none => (false, m, zone)
  | some o =>
    if o.state ≠ ObjectState.held then (false, m, zone)
    else if zone.isFull then (false, m, zone)
    else
      let r := zone.addObject
      if r.1 = false then (false, m, r.2)
      else
        (true,
         updateObject m oid (fun o2 =>
           { o2 with state := ObjectState.inZone, position := zoneCenter zone }),
         r.2)

-- ObjectManager.return_to_source
def returnToSource (m : ObjectManager) (oid : String) :
    Bool × ObjectManager :=
  match getObject m oid with
  | none => (false, m)
  | some o =>
    if o.state ≠ ObjectState.held then (false, m)
    else
      (true, updateObject m oid (fun o2 =>
        { o2 with state := ObjectState.inSource, position := sourceCenter m }))

/-! ## Arm controller (arm_controller.py) -/

inductive ArmState
  | idle | moving | picking | holding | placing
  deriving DecidableEq

structure Arm where
  state : ArmState
  position : Position2D
  heldObject : Option Object
  targetPosition : Option Position2D
  retryCount : ℤ

-- RoboticArmController.__init__ / RoboticArmController.reset
def resetArm (_a : Arm) : Arm :=
  { state := ArmState.idle
    position := ⟨0, 0⟩
    heldObject := none
    targetPosition := none
    retryCount := 0 }

-- Python truthiness of `if ignore_object_id and obj.id == ignore_object_id`:
-- the skip fires only for a present, non-empty ignore id that matches.
def ignoreMatches (ign : Option String) (oid : String) : Bool :=
  match ign with
  | none => false
  | some s => !(s == "") && (oid == s)

-- RoboticArmController.check_collision
def checkCollision (start stop : Position2D) (mgr : ObjectManager)
    (ign : Option String) : Bool :=
  let buffer : ℝ := 0.5
  let pathBBox : BoundingBox :=
    ⟨⟨min start.x stop.x - buffer, min start.y stop.y - buffer⟩,
     ⟨max start.x stop.x + buffer, max start.y stop.y + buffer⟩⟩
  mgr.objects.any (fun o =>
    if o.state = ObjectState.held then false
    else if ignoreMatches ign o.id then false
    else pathBBox.contains o.position)

def baseOffsets : List ℝ := [2.0, 3.0, 4.0, 5.0, 6.0, 8.0]

def sideSigns : List ℝ := [1, -1]

def pathFractions : List ℝ := [0.2, 0.33, 0.5, 0.67, 0.8]

-- RoboticArmController._find_alternative_path
def findAlternativePath (start stop : Position2D) (mgr : ObjectManager)
    (ign : Option String) : Option (List Position2D) :=
  let dx := stop.x - start.x
  let dy := stop.y - start.y
  let distance := Real.sqrt (dx ^ 2 + dy ^ 2)
  if distance < 0.01 then none
  else
    let normDx := dx / distance
    let normDy := dy / distance
    let perpX := -normDy
    let perpY := normDx
    let single :=
      baseOffsets.findSome? (fun offset =>
        sideSigns.findSome? (fun dir =>
          pathFractions.findSome? (fun fr =>
            let waypoint : Position2D :=
              ⟨start.x + dx * fr + dir * offset * perpX,
               start.y + dy * fr + dir * offset * perpY⟩
            let path1Clear := !(checkCollision start waypoint mgr ign)
            let path2Clear := !(checkCollision waypoint stop mgr ign)
            if path1Clear && path2Clear then some [waypoint] else none)))
    match single with
    | some ws => some ws
    | none =>
      baseOffsets.findSome? (fun offset =>
        sideSigns.findSome? (fun dir =>
          let waypoint1 : Position2D :=
            ⟨start.x + dx * 0.3 + dir * offset * perpX,
             start.y + dy * 0.3 + dir * offset * perpY⟩
          let waypoint2 : Position2D :=
            ⟨start.x + dx * 0.7 + dir * offset * perpX,
             start.y + dy * 0.7 + dir * offset * perpY⟩
          let path1Clear := !(checkCollision start waypoint1 mgr ign)
          let path2Clear := !(checkCollision waypoint1 waypoint2 mgr ign)
          let path3Clear := !(checkCollision waypoint2 stop mgr ign)
          if path1Clear && path2Clear && path3Clear then some [waypoint1, waypoint2]
          else none))

-- RoboticArmController.move_to
def moveTo (arm : Arm) (target : Position2D) (mgr : ObjectManager)
    (ign : Option String) : Arm × MovementResult :=
  if checkCollision arm.position target mgr ign then
    match findAlternativePath arm.position target mgr ign with
    | some waypoints =>
      let armW := waypoints.foldl (fun a w => { a with position := w }) arm
      let arm2 := { armW with position := target, targetPosition := some target }
      (arm2, ⟨true, none, arm2.position⟩)
    | none =>
      let arm2 := { arm with state := ArmState.idle, targetPosition := none }
      (arm2, ⟨false, some ErrorType.collision, arm.position⟩)
  else
    let arm2 := { arm with targetPosition := some target, position := target }
    (arm2, ⟨true, none, arm2.position⟩)

/-! ### Pick and place with retry loops -/

-- The retry loop of RoboticArmController.pick_object (lines 337-413).
-- One recursive call corresponds to one execution of `while self._retry_count
-- <= max_retries`; the branch where the guard fails is the code below the loop.
def pickLoop (oid : String) (obj : Object) (mgr : ObjectManager)
    (maxRetries : ℤ) (fc : Option (ℕ → Bool)) (arm : Arm) :
    Arm × ObjectManager × OperationResult :=
  if h : arm.retryCount ≤ maxRetries then
    let arm1 := { arm with state := ArmState.moving,
                           targetPosition := some obj.position }
    let mv := moveTo arm1 obj.position mgr (some oid)
    let arm2 := mv.1
    if mv.2.success = false then
      (arm2, mgr,
       ⟨false, OperationType.pick, some oid, some ErrorType.collision,
        arm2.retryCount⟩)
    else
      let arm3 := { arm2 with state := ArmState.picking }
      let pickFailed := match fc with
        | none => false
        | some f => f arm3.retryCount.toNat
      if pickFailed = false then
        let rm := removeFromSource mgr oid
        if rm.1 = true then
          let arm4 := { arm3 with
            heldObject := some { obj with state := ObjectState.held },
            state := ArmState.holding,
            targetPosition := none }
          (arm4, rm.2,
           ⟨true, OperationType.pick, some oid, none, arm4.retryCount⟩)
        else
          let arm4 := { arm3 with retryCount := arm3.retryCount + 1 }
          if arm4.retryCount > maxRetries then
            ({ arm4 with state := ArmState.idle, targetPosition := none }, rm.2,
             ⟨false, OperationType.pick, some oid,
              some ErrorType.maxRetriesExceeded, arm4.retryCount⟩)
          else
            pickLoop oid obj rm.2 maxRetries fc arm4
      else
        let arm4 := { arm3 with retryCount := arm3.retryCount + 1 }
        if arm4.retryCount > maxRetries then
          ({ arm4 with state := ArmState.idle, targetPosition := none }, mgr,
           ⟨false, OperationType.pick, some oid, some ErrorType.maxRetriesExceeded,
            arm4.retryCount⟩)
        else
          pickLoop oid obj mgr maxRetries fc arm4
  else
    ({ arm with state := ArmState.idle, targetPosition := none }, mgr,
     ⟨false, OperationType.pick, some oid, some ErrorType.maxRetriesExceeded,
      arm.retryCount⟩)
termination_by (maxRetries + 1 - arm.retryCount).toNat
decreasing_by
  all_goals
    have hrc : ∀ (a : Arm) (t : Position2D) (m : ObjectManager)
        (i : Option String), ((moveTo a t m i).1).retryCount = a.retryCount := by
      have hf : ∀ (ws : List Position2D) (a2 : Arm),
          (ws.foldl (fun a3 w => { a3 with position := w }) a2).retryCount
            = a2.retryCount := by
        intro ws
        induction ws with
        | nil => intro a2; rfl
        | cons w ws ih => intro a2; exact ih _
      intro a t m i
      unfold moveTo
      split
      · split <;> simp [hf]
      · rfl
    simp only [hrc]
    omega

-- RoboticArmController.pick_object
def pickObject (arm : Arm) (oid : String) (mgr : ObjectManager)
    (maxRetries : ℤ) (fc : Option (ℕ → Bool)) :
    Arm × ObjectManager × OperationResult :=
  if arm.state ≠ ArmState.idle then
    (arm, mgr,
     ⟨false, OperationType.pick, some oid, some ErrorType.invalidState, 0⟩)
  else
    match getObject mgr oid with
    | none =>
      (arm, mgr,
       ⟨false, OperationType.pick, some oid, some ErrorType.objectNotFound, 0⟩)
    | some obj =>
      if obj.state ≠ ObjectState.inSource then
        (arm, mgr,
         ⟨false, OperationType.pick, some oid, some ErrorType.invalidState, 0⟩)
      else
        pickLoop oid obj mgr maxRetries fc { arm with retryCount := 0 }

-- The retry loop of RoboticArmController.place_object (lines 478-576).
-- The failure tail (retry_count += 1; exhaustion check; state = HOLDING) is
-- duplicated per failure branch, receiving whatever manager/zone state that
-- branch produced.  When retries are exhausted but return_to_source fails,
-- the source falls back to the code below the loop: here that is the
-- recursive call whose guard immediately fails.
def placeLoop (zone : TargetZone) (oid : String) (mgr : ObjectManager)
    (maxRetries : ℤ) (fc : Option (ℕ → Bool)) (arm : Arm) :
    Arm × ObjectManager × TargetZone × OperationResult :=
  if h : arm.retryCount ≤ maxRetries then
    let center := zoneCenter zone
    let arm1 := { arm with state := ArmState.moving,
                           targetPosition := some center }
    let mv := moveTo arm1 center mgr none
    let arm2 := mv.1
    if mv.2.success = false then
      let rt := returnToSource mgr oid
      let arm3 :=
        if rt.1 = true then
          { arm2 with heldObject := none, state := ArmState.idle,
                      targetPosition := none }
        else arm2
      (arm3, rt.2, zone,
       ⟨false, OperationType.place, some oid, some ErrorType.collision,
        arm3.retryCount⟩)
    else
      let arm3 := { arm2 with state := ArmState.placing }
      let placeFailed := match fc with
        | none => false
        | some f => f arm3.retryCount.toNat
      if placeFailed = false then
        let pz := placeInZone mgr oid zone
        let verified :=
          match getObject pz.2.1 oid with
          | some o2 => zone.bounds.contains o2.position
          | none => false
        if pz.1 = true ∧ verified = true then
          let arm4 := { arm3 with heldObject := none, state := ArmState.idle,
                                  targetPosition := none }
          (arm4, pz.2.1, pz.2.2,
           ⟨true, OperationType.place, some oid, none, arm4.retryCount⟩)
        else
          let arm4 := { arm3 with retryCount := arm3.retryCount + 1 }
          if arm4.retryCount > maxRetries then
            let rt := returnToSource pz.2.1 oid
            if rt.1 = true then
              ({ arm4 with heldObject := none, state := ArmState.idle,
                           targetPosition := none }, rt.2, pz.2.2,
               ⟨false, OperationType.place, some oid,
                some ErrorType.maxRetriesExceeded, arm4.retryCount⟩)
            else
              placeLoop pz.2.2 oid rt.2 maxRetries fc
                { arm4 with state := ArmState.holding }
          else
            placeLoop pz.2.2 oid pz.2.1 maxRetries fc
              { arm4 with state := ArmState.holding }
      else
        let arm4 := { arm3 with retryCount := arm3.retryCount + 1 }
        if arm4.retryCount > maxRetries then
          let rt := returnToSource mgr oid
          if rt.1 = true then
            ({ arm4 with heldObject := none, state := ArmState.idle,
                         targetPosition := none }, rt.2, zone,
             ⟨false, OperationType.place, some oid,
              some ErrorType.maxRetriesExceeded, arm4.retryCount⟩)
          else
            placeLoop zone oid rt.2 maxRetries fc
              { arm4 with state := ArmState.holding }
        else
          placeLoop zone oid mgr maxRetries fc
            { arm4 with state := ArmState.holding }
  else
    let rt := returnToSource mgr oid
    let arm1 := if rt.1 = true then { arm with heldObject := none } else arm
    ({ arm1 with state := ArmState.idle, targetPosition := none }, rt.2, zone,
     ⟨false, OperationType.place, some oid, some ErrorType.maxRetriesExceeded,
      arm.retryCount⟩)
termination_by (maxRetries + 1 - arm.retryCount).toNat
decreasing_by
  all_goals
    have hrc : ∀ (a : Arm) (t : Position2D) (m : ObjectManager)
        (i : Option String), ((moveTo a t m i).1).retryCount = a.retryCount := by
      have hf : ∀ (ws : List Position2D) (a2 : Arm),
          (ws.foldl (fun a3 w => { a3 with position := w }) a2).retryCount
            = a2.retryCount := by
        intro ws
        induction ws with
        | nil => intro a2; rfl
        | cons w ws ih => intro a2; exact ih _
      intro a t m i
      unfold moveTo
      split
      · split <;> simp [hf]
      · rfl
    simp only [hrc]
    omega

-- RoboticArmController.place_object
def placeObject (arm : Arm) (zone : TargetZone) (mgr : ObjectManager)
    (maxRetries : ℤ) (fc : Option (ℕ → Bool)) :
    Arm × ObjectManager × TargetZone × OperationResult :=
  if arm.state ≠ ArmState.holding then
    (arm, mgr, zone,
     ⟨false, OperationType.place, arm.heldObject.map (fun o => o.id),
      some ErrorType.invalidState, 0⟩)
  else
    match arm.heldObject with
    | none =>
      (arm, mgr, zone,
       ⟨false, OperationType.place, none, some ErrorType.invalidState, 0⟩)
    | some held =>
      let oid := held.id
      if zone.isFull = true then
        let rt := returnToSource mgr oid
        if rt.1 = true then
          ({ arm with heldObject := none, state := ArmState.idle,
                      targetPosition := none }, rt.2, zone,
           ⟨false, OperationType.place, some oid, some ErrorType.zoneFull, 0⟩)
        else
          placeLoop zone oid rt.2 maxRetries fc { arm with retryCount := 0 }
      else
        placeLoop zone oid mgr maxRetries fc { arm with retryCount := 0 }

/-! ## Spec-side statement of the path planner (section 4.2 of the spec).
The candidate enumeration is written out as the flattened list the spec
describes: offset ascending, then side `+1` before `-1`, then fraction
ascending, with accept-first semantics; the two-waypoint fallback uses the
pair at fractions 0.3 and 0.7. -/

def specWaypoint (start stop : Position2D) (offset dir fr : ℝ) : Position2D :=
  let dx := stop.x - start.x
  let dy := stop.y - start.y
  let distance := Real.sqrt (dx ^ 2 + dy ^ 2)
  ⟨start.x + dx * fr + dir * offset * (-(dy / distance)),
   start.y + dy * fr + dir * offset * (dx / distance)⟩

def specSingleCandidates (start stop : Position2D) : List Position2D :=
  baseOffsets.flatMap (fun offset =>
    sideSigns.flatMap (fun dir =>
      pathFractions.map (fun fr => specWaypoint start stop offset dir fr)))

def specPairCandidates (start stop : Position2D) :
    List (Position2D × Position2D) :=
  baseOffsets.flatMap (fun offset =>
    sideSigns.map (fun dir =>
      (specWaypoint start stop offset dir 0.3,
       specWaypoint start stop offset dir 0.7)))

def plannerSpec (start stop : Position2D) (mgr : ObjectManager)
    (ign : Option String) : Option (List Position2D) :=
  if Real.sqrt ((stop.x - start.x) ^ 2 + (stop.y - start.y) ^ 2) < 0.01 then
    none
  else
    match (specSingleCandidates start stop).find? (fun w =>
        !(checkCollision start w mgr ign) && !(checkCollision w stop mgr ign))
      with
    | some w => some [w]
    | none =>
      ((specPairCandidates start stop).find? (fun pr =>
          !(checkCollision start pr.1 mgr ign) &&
          !(checkCollision pr.1 pr.2 mgr ign) &&
          !(checkCollision pr.2 stop mgr ign))).map (fun pr => [pr.1, pr.2])

/-! ## Zone states reachable through the registry-mediated transitions:
creation with a zero count, `add_object`, `remove_object`, and
`place_in_zone` (which calls `add_object`). -/

inductive ZoneReachable : TargetZone → Prop
  | init (id : String) (bounds : BoundingBox) (capacity : ℤ) (cv : String) :
      ZoneReachable ⟨id, bounds, capacity, cv, 0⟩
  | add (z : TargetZone) : ZoneReachable z → ZoneReachable z.addObject.2
  | remove (z : TargetZone) : ZoneReachable z → ZoneReachable z.removeObject.2
  | place (m : ObjectManager) (oid : String) (z : TargetZone) :
      ZoneReachable z → ZoneReachable (placeInZone m oid z).2.2

/-! ## Concrete fixtures used in closed instances -/

def emptyId : String := ""

def oid0 : String := "obj_0"

def oidHeld : String := "obj_1"

def posOrigin : Position2D := ⟨0, 0⟩

def box010 : BoundingBox := ⟨⟨0, 0⟩, ⟨10, 10⟩⟩

def srcArea0 : SourceArea := ⟨box010, 10⟩

def objSrc : Object :=
  ⟨oid0, Color.red, Size.small, ObjectType.typeA, ⟨5, 5⟩, ObjectState.inSource⟩

def mgrSrc : ObjectManager := ⟨[objSrc], srcArea0, []⟩

def armIdle : Arm := ⟨ArmState.idle, ⟨0, 0⟩, none, none, 0⟩

def objHeld0 : Object :=
  ⟨oid0, Color.red, Size.small, ObjectType.typeA, ⟨5, 5⟩, ObjectState.held⟩

def mgrHeld : ObjectManager := ⟨[objHeld0], srcArea0, []⟩

def armHolding : Arm := ⟨ArmState.holding, ⟨0, 0⟩, some objHeld0, none, 0⟩

def fcAlwaysFail : ℕ → Bool := fun _ => true

def zoneCap0 : TargetZone := ⟨"zone_a", box010, 0, "red", 0⟩

def zoneCap1 : TargetZone := ⟨"zone_b", box010, 1, "red", 0⟩

def zoneCap2 : TargetZone := ⟨"zone_c", box010, 2, "red", 0⟩

def zoneNegCap : TargetZone := ⟨"zone_n", box010, -1, "red", 0⟩

def objOrigin : Object :=
  ⟨oid0, Color.red, Size.small, ObjectType.typeA, ⟨0, 0⟩, ObjectState.inSource⟩

def mgrOrigin : ObjectManager := ⟨[objOrigin], srcArea0, []⟩

def objEmptyId : Object :=
  ⟨emptyId, Color.red, Size.small, ObjectType.typeA, ⟨0, 0⟩, ObjectState.inSource⟩

def mgrEmptyId : ObjectManager := ⟨[objEmptyId], srcArea0, []⟩

def mgrEmpty : ObjectManager := ⟨[], srcArea0, []⟩

def objHeldB : Object :=
  ⟨oidHeld, Color.red, Size.small, ObjectType.typeA, ⟨1, 1⟩, ObjectState.held⟩

def objAtZoneCenter : Object :=
  ⟨oid0, Color.red, Size.small, ObjectType.typeA, ⟨5, 5⟩, ObjectState.inZone⟩

def mgrZoneBlocked : ObjectManager :=
  ⟨[objHeldB, objAtZoneCenter], srcArea0, []⟩

def armHoldingB : Arm := ⟨ArmState.holding, ⟨0, 0⟩, some objHeldB, none, 0⟩

/-! ### Basic facts about `moveTo` -/

theorem foldl_setPos_then (ws : List Position2D) (a : Arm) (t : Position2D) :
    ({ ws.foldl (fun a2 w => { a2 with position := w }) a with
        position := t, targetPosition := some t } : Arm) =
    { a with position := t, targetPosition := some t } := by
  induction ws generalizing a with
  | nil => rfl
  | cons w ws ih => exact ih _

theorem moveTo_clear (a : Arm) (t : Position2D) (m : ObjectManager)
    (i : Option String) (hc : checkCollision a.position t m i = false) :
    moveTo a t m i =
      ({ a with targetPosition := some t, position := t }, ⟨true, none, t⟩) := by
  simp [moveTo, hc]

theorem moveTo_detour (a : Arm) (t : Position2D) (m : ObjectManager)
    (i : Option String) (ws : List Position2D)
    (hc : checkCollision a.position t m i = true)
    (hp : findAlternativePath a.position t m i = some ws) :
    moveTo a t m i =
      ({ a with targetPosition := some t, position := t }, ⟨true, none, t⟩) := by
  simp only [moveTo, hc, if_true, hp]
  rw [foldl_setPos_then]

theorem moveTo_blocked (a : Arm) (t : Position2D) (m : ObjectManager)
    (i : Option String) (hc : checkCollision a.position t m i = true)
    (hp : findAlternativePath a.position t m i = none) :
    moveTo a t m i =
      ({ a with state := ArmState.idle, targetPosition := none },
       ⟨false, some ErrorType.collision, a.position⟩) := by
  simp [moveTo, hc, hp]

theorem moveTo_fail_eq (a : Arm) (t : Position2D) (m : ObjectManager)
    (i : Option String) (h : (moveTo a t m i).2.success = false) :
    moveTo a t m i =
      ({ a with state := ArmState.idle, targetPosition := none },
       ⟨false, some ErrorType.collision, a.position⟩) := by
  by_cases hc : checkCollision a.position t m i = true
  · cases hp : findAlternativePath a.position t m i with
    | some ws => rw [moveTo_detour a t m i ws hc hp] at h; simp at h
    | none => exact moveTo_blocked a t m i hc hp
  · rw [moveTo_clear a t m i (by simpa using hc)] at h; simp at h

theorem moveTo_succ_eq (a : Arm) (t : Position2D) (m : ObjectManager)
    (i : Option String) (h : (moveTo a t m i).2.success = true) :
    moveTo a t m i =
      ({ a with targetPosition := some t, position := t }, ⟨true, none, t⟩) := by
  by_cases hc : checkCollision a.position t m i = true
  · cases hp : findAlternativePath a.position t m i with
    | some ws => exact moveTo_detour a t m i ws hc hp
    | none => rw [moveTo_blocked a t m i hc hp] at h; simp at h
  · exact moveTo_clear a t m i (by simpa using hc)

theorem moveTo_retryCount (a : Arm) (t : Position2D) (m : ObjectManager)
    (i : Option String) : ((moveTo a t m i).1).retryCount = a.retryCount := by
  cases h : (moveTo a t m i).2.success
  · rw [moveTo_fail_eq a t m i h]
  · rw [moveTo_succ_eq a t m i h]

theorem moveTo_heldObject (a : Arm) (t : Position2D) (m : ObjectManager)
    (i : Option String) : ((moveTo a t m i).1).heldObject = a.heldObject := by
  cases h : (moveTo a t m i).2.success
  · rw [moveTo_fail_eq a t m i h]
  · rw [moveTo_succ_eq a t m i h]

/-! ## Registry lemmas -/

theorem find_update (l : List Object) (oid : String) (f : Object → Object)
    (hf : ∀ o, (f o).id = o.id) :
    (l.map (fun o => if o.id = oid then f o else o)).find?
        (fun o => o.id = oid)
      = (l.find? (fun o => o.id = oid)).map f := by
  induction l with
  | nil => rfl
  | cons o t ih =>
    by_cases h : o.id = oid
    · simp [h, hf o]
    · simp [h, ih]

theorem getObject_updateObject (m : ObjectManager) (oid : String)
    (f : Object → Object) (hf : ∀ o, (f o).id = o.id) :
    getObject (updateObject m oid f) oid = (getObject m oid).map f :=
  find_update m.objects oid f hf

theorem removeFromSource_false (m : ObjectManager) (oid : String)
    (h : (removeFromSource m oid).1 = false) :
    (removeFromSource m oid).2 = m := by
  unfold removeFromSource at h ⊢
  cases hg : getObject m oid with
  | none => rfl
  | some o =>
    rw [hg] at h
    by_cases hs : o.state = ObjectState.inSource <;> simp [hs] at h ⊢

theorem returnToSource_of_held (m : ObjectManager) (oid : String) (o : Object)
    (h1 : getObject m oid = some o) (h2 : o.state = ObjectState.held) :
    returnToSource m oid =
      (true, updateObject m oid (fun o2 =>
        { o2 with state := ObjectState.inSource, position := sourceCenter m })) := by
  unfold returnToSource
  rw [h1]
  simp [h2]

theorem returnToSource_held_state (m : ObjectManager) (oid : String)
    (o : Object) (h1 : getObject m oid = some o)
    (h2 : o.state = ObjectState.held) :
    (returnToSource m oid).1 = true ∧
      ∃ o2, getObject (returnToSource m oid).2 oid = some o2 ∧
        o2.state = ObjectState.inSource := by
  rw [returnToSource_of_held m oid o h1 h2]
  refine ⟨rfl, ?_⟩
  dsimp only
  rw [getObject_updateObject m oid (fun o2 =>
        { o2 with state := ObjectState.inSource, position := sourceCenter m })
      (fun o2 => rfl), h1]
  exact ⟨_, rfl, rfl⟩

theorem placeInZone_of_held_notFull (m : ObjectManager) (oid : String)
    (zone : TargetZone) (o : Object) (h1 : getObject m oid = some o)
    (h2 : o.state = ObjectState.held) (h3 : zone.isFull = false) :
    placeInZone m oid zone =
      (true,
       updateObject m oid (fun o2 =>
         { o2 with state := ObjectState.inZone, position := zoneCenter zone }),
       { zone with currentCount := zone.currentCount + 1 }) := by
  unfold placeInZone
  rw [h1]
  simp [h2, h3, TargetZone.addObject]

theorem placeInZone_count_mono (m : ObjectManager) (oid : String)
    (zone : TargetZone) :
    zone.currentCount ≤ (placeInZone m oid zone).2.2.currentCount := by
  unfold placeInZone
  cases hg : getObject m oid with
  | none => simp
  | some o =>
    by_cases hs : o.state = ObjectState.held
    · by_cases hf : zone.isFull = true
      · simp [hs, hf]
      · simp [hs, Bool.of_not_eq_true hf, TargetZone.addObject]
    · simp [hs]

theorem placeInZone_bounds (m : ObjectManager) (oid : String)
    (zone : TargetZone) : (placeInZone m oid zone).2.2.bounds = zone.bounds := by
  unfold placeInZone
  cases hg : getObject m oid with
  | none => simp
  | some o =>
    by_cases hs : o.state = ObjectState.held
    · by_cases hf : zone.isFull = true
      · simp [hs, hf]
      · simp [hs, Bool.of_not_eq_true hf, TargetZone.addObject]
    · simp [hs]

theorem updateObject_targetZones (m : ObjectManager) (oid : String)
    (f : Object → Object) : (updateObject m oid f).targetZones = m.targetZones :=
  rfl

theorem removeFromSource_targetZones (m : ObjectManager) (oid : String) :
    (removeFromSource m oid).2.targetZones = m.targetZones := by
  unfold removeFromSource
  cases hg : getObject m oid with
  | none => rfl
  | some o =>
    by_cases hs : o.state = ObjectState.inSource
    · simp [hs, updateObject_targetZones]
    · simp [hs]

theorem returnToSource_targetZones (m : ObjectManager) (oid : String) :
    (returnToSource m oid).2.targetZones = m.targetZones := by
  unfold returnToSource
  cases hg : getObject m oid with
  | none => rfl
  | some o =>
    by_cases hs : o.state = ObjectState.held
    · simp [hs, updateObject_targetZones]
    · simp [hs]

theorem placeInZone_targetZones (m : ObjectManager) (oid : String)
    (zone : TargetZone) :
    (placeInZone m oid zone).2.1.targetZones = m.targetZones := by
  unfold placeInZone
  cases hg : getObject m oid with
  | none => rfl
  | some o =>
    by_cases hs : o.state = ObjectState.held
    · by_cases hf : zone.isFull = true
      · simp [hs, hf]
      · simp [hs, Bool.of_not_eq_true hf, TargetZone.addObject,
              updateObject_targetZones]
    · simp [hs]

/-! ## Collision checker characterization -/

theorem checkCollision_true_iff (s e : Position2D) (mgr : ObjectManager)
    (ign : Option String) :
    checkCollision s e mgr ign = true ↔
      ∃ o ∈ mgr.objects, o.state ≠ ObjectState.held ∧
        ignoreMatches ign o.id = false ∧
        min s.x e.x - 0.5 ≤ o.position.x ∧ o.position.x ≤ max s.x e.x + 0.5 ∧
        min s.y e.y - 0.5 ≤ o.position.y ∧ o.position.y ≤ max s.y e.y + 0.5 := by
  unfold checkCollision
  rw [List.any_eq_true]
  apply exists_congr
  intro o
  apply and_congr_right
  intro ho
  by_cases h1 : o.state = ObjectState.held
  · simp [h1]
  · by_cases h2 : ignoreMatches ign o.id = true
    · simp [h1, h2]
    · have h2f : ignoreMatches ign o.id = false := by simpa using h2
      simp [h1, h2f, BoundingBox.contains]

theorem ignoreMatches_false_iff (ign : Option String) (oid : String) :
    ignoreMatches ign oid = false ↔
      ∀ sid, ign = some sid → sid ≠ emptyId → oid ≠ sid := by
  cases ign with
  | none => simp [ignoreMatches]
  | some s =>
    simp only [ignoreMatches, Option.some.injEq, emptyId]
    constructor
    · intro h sid hs
      subst hs
      rcases Bool.and_eq_false_iff.1 h with h' | h'
      · intro hne
        exact absurd (by simpa using h') hne
      · intro _ heq
        exact absurd (by simpa using heq) (by simpa using h')
    · intro h
      by_cases hs : s = ""
      · simp [hs]
      · have := h s rfl hs
        simp [Bool.and_eq_false_iff, this, hs]

/-- Claim C6 (amended): `check_collision(start, end, registry, ignore_id)`
returns true iff some object in the registry satisfies all three of: its state
is not Held, its id differs from `ignore_id` whenever `ignore_id` is provided
and non-empty, and its position lies (inclusive boundaries) within the
axis-aligned bounding box of the segment expanded by 0.5 units on every side.
(The claim as frozen omits "and non-empty": Python evaluates an empty
`ignore_object_id` string as falsy, so an empty provided ignore id is not
honored; see the counterexample.) -/
theorem claim_C6_amended (s e : Position2D) (mgr : ObjectManager)
    (ign : Option String) :
    checkCollision s e mgr ign = true ↔
      ∃ o ∈ mgr.objects, o.state ≠ ObjectState.held ∧
        (∀ sid, ign = some sid → sid ≠ emptyId → o.id ≠ sid) ∧
        min s.x e.x - 0.5 ≤ o.position.x ∧ o.position.x ≤ max s.x e.x + 0.5 ∧
        min s.y e.y - 0.5 ≤ o.position.y ∧ o.position.y ≤ max s.y e.y + 0.5 := by
  rw [checkCollision_true_iff]
  apply exists_congr
  intro o
  rw [ignoreMatches_false_iff]

/-- Claim C6 as frozen is false on the code: with a provided (but empty)
ignore id and a registry object whose id is the empty string, the code
detects a collision although the claimed characterization (which requires
the object's id to differ from any provided ignore id) is not satisfied by
any object. -/
theorem claim_C6_counterexample :
    ¬ (checkCollision posOrigin posOrigin mgrEmptyId (some emptyId) = true ↔
        ∃ o ∈ mgrEmptyId.objects, o.state ≠ ObjectState.held ∧
          (∀ sid, (some emptyId : Option String) = some sid → o.id ≠ sid) ∧
          min posOrigin.x posOrigin.x - 0.5 ≤ o.position.x ∧
          o.position.x ≤ max posOrigin.x posOrigin.x + 0.5 ∧
          min posOrigin.y posOrigin.y - 0.5 ≤ o.position.y ∧
          o.position.y ≤ max posOrigin.y posOrigin.y + 0.5) := by
  intro h
  have hL : checkCollision posOrigin posOrigin mgrEmptyId (some emptyId) = true := by
    rw [checkCollision_true_iff]
    refine ⟨objEmptyId, by simp [mgrEmptyId], by simp [objEmptyId], ?_, ?_⟩
    · simp [ignoreMatches, emptyId, objEmptyId]
    · simp only [objEmptyId, posOrigin]
      norm_num
  rcases h.1 hL with ⟨o, ho, _, hid, _⟩
  have : o = objEmptyId := by simpa [mgrEmptyId] using ho
  subst this
  exact hid emptyId rfl rfl

/-! ## Path planner: the nested accept-first search equals the find-first
over the flattened candidate enumeration -/

theorem findSome_ifWrap (g : ℝ → Position2D) (P : Position2D → Bool)
    (l : List ℝ) :
    l.findSome? (fun fr => if P (g fr) then some [g fr] else none)
      = ((l.map g).find? P).map (fun w => [w]) := by
  induction l with
  | nil => rfl
  | cons x xs ih =>
    rw [List.findSome?_cons, List.map_cons, List.find?_cons]
    cases h : P (g x) <;> simp [ih]

theorem findSome_ifWrapPair (g : ℝ → Position2D × Position2D)
    (P : Position2D × Position2D → Bool) (l : List ℝ) :
    l.findSome? (fun d => if P (g d) then some [(g d).1, (g d).2] else none)
      = ((l.map g).find? P).map (fun pr => [pr.1, pr.2]) := by
  induction l with
  | nil => rfl
  | cons x xs ih =>
    rw [List.findSome?_cons, List.map_cons, List.find?_cons]
    cases h : P (g x) <;> simp [ih]

theorem findSome_flatMap_level {α β γ : Type} (l : List α) (FL : α → List β)
    (P : β → Bool) (k : β → γ) (E : α → Option γ)
    (hE : ∀ a, E a = ((FL a).find? P).map k) :
    l.findSome? E = ((l.flatMap FL).find? P).map k := by
  induction l with
  | nil => rfl
  | cons x xs ih =>
    rw [List.findSome?_cons, List.flatMap_cons, List.find?_append, hE x]
    cases hf : (FL x).find? P <;> simp [Option.or, ih]

theorem findAlternativePath_eq_plannerSpec (s e : Position2D)
    (mgr : ObjectManager) (ign : Option String) :
    findAlternativePath s e mgr ign = plannerSpec s e mgr ign := by
  unfold findAlternativePath plannerSpec
  dsimp only
  by_cases hd : Real.sqrt ((e.x - s.x) ^ 2 + (e.y - s.y) ^ 2) < 0.01
  · rw [if_pos hd, if_pos hd]
  · rw [if_neg hd, if_neg hd]
    have hwp : ∀ off dir fr : ℝ,
        (⟨s.x + (e.x - s.x) * fr +
            dir * off * -((e.y - s.y) /
              Real.sqrt ((e.x - s.x) ^ 2 + (e.y - s.y) ^ 2)),
          s.y + (e.y - s.y) * fr +
            dir * off * ((e.x - s.x) /
              Real.sqrt ((e.x - s.x) ^ 2 + (e.y - s.y) ^ 2))⟩ : Position2D)
          = specWaypoint s e off dir fr := fun _ _ _ => rfl
    simp only [hwp]
    have HS :
        baseOffsets.findSome? (fun offset =>
          sideSigns.findSome? (fun dir =>
            pathFractions.findSome? (fun fr =>
              if (!(checkCollision s (specWaypoint s e offset dir fr) mgr ign) &&
                  !(checkCollision (specWaypoint s e offset dir fr) e mgr ign))
              then some [specWaypoint s e offset dir fr] else none)))
        = ((specSingleCandidates s e).find? (fun w =>
            !(checkCollision s w mgr ign) &&
            !(checkCollision w e mgr ign))).map (fun w => [w]) := by
      unfold specSingleCandidates
      exact findSome_flatMap_level baseOffsets _ _ _ _
        (fun offset => findSome_flatMap_level sideSigns _ _ _ _
          (fun dir =>
            findSome_ifWrap (fun fr => specWaypoint s e offset dir fr)
              (fun w => !(checkCollision s w mgr ign) &&
                        !(checkCollision w e mgr ign))
              pathFractions))
    have HP :
        baseOffsets.findSome? (fun offset =>
          sideSigns.findSome? (fun dir =>
            if (!(checkCollision s (specWaypoint s e offset dir 0.3) mgr ign) &&
                !(checkCollision (specWaypoint s e offset dir 0.3)
                    (specWaypoint s e offset dir 0.7) mgr ign) &&
                !(checkCollision (specWaypoint s e offset dir 0.7) e mgr ign))
            then some [specWaypoint s e offset dir 0.3,
                       specWaypoint s e offset dir 0.7] else none))
        = ((specPairCandidates s e).find? (fun pr =>
            !(checkCollision s pr.1 mgr ign) &&
            !(checkCollision pr.1 pr.2 mgr ign) &&
            !(checkCollision pr.2 e mgr ign))).map (fun pr => [pr.1, pr.2]) := by
      unfold specPairCandidates
      exact findSome_flatMap_level baseOffsets _ _ _ _
        (fun offset =>
          findSome_ifWrapPair
            (fun dir => (specWaypoint s e offset dir 0.3,
                         specWaypoint s e offset dir 0.7))
            (fun pr => !(checkCollision s pr.1 mgr ign) &&
                       !(checkCollision pr.1 pr.2 mgr ign) &&
                       !(checkCollision pr.2 e mgr ign)) sideSigns)
    rw [HS, HP]
    cases hf : (specSingleCandidates s e).find? (fun w =>
        !(checkCollision s w mgr ign) && !(checkCollision w e mgr ign)) <;>
      simp

theorem findAlternativePath_none_of_eps (s e : Position2D)
    (mgr : ObjectManager) (ign : Option String)
    (hd : Real.sqrt ((e.x - s.x) ^ 2 + (e.y - s.y) ^ 2) < 0.01) :
    findAlternativePath s e mgr ign = none := by
  unfold findAlternativePath
  dsimp only
  rw [if_pos hd]

theorem plannerSpec_none_of_blocked (s e : Position2D) (mgr : ObjectManager)
    (ign : Option String)
    (hb : ∀ p : Position2D, checkCollision p e mgr ign = true) :
    plannerSpec s e mgr ign = none := by
  unfold plannerSpec
  by_cases hd : Real.sqrt ((e.x - s.x) ^ 2 + (e.y - s.y) ^ 2) < 0.01
  · rw [if_pos hd]
  · rw [if_neg hd]
    have h1 : (specSingleCandidates s e).find? (fun w =>
        !(checkCollision s w mgr ign) && !(checkCollision w e mgr ign)) = none := by
      rw [List.find?_eq_none]
      intro w _
      simp [hb]
    have h2 : (specPairCandidates s e).find? (fun pr =>
        !(checkCollision s pr.1 mgr ign) &&
        !(checkCollision pr.1 pr.2 mgr ign) &&
        !(checkCollision pr.2 e mgr ign)) = none := by
      rw [List.find?_eq_none]
      intro pr _
      simp [hb]
    rw [h1, h2]
    rfl

theorem findAlternativePath_none_of_blocked (s e : Position2D)
    (mgr : ObjectManager) (ign : Option String)
    (hb : ∀ p : Position2D, checkCollision p e mgr ign = true) :
    findAlternativePath s e mgr ign = none :=
  (findAlternativePath_eq_plannerSpec s e mgr ign).trans
    (plannerSpec_none_of_blocked s e mgr ign hb)

/-- Claim C4: the path planner enumerates single-waypoint candidates with
offset ascending over [2,3,4,5,6,8], then side +1 before -1, then fraction
ascending over [0.2,0.33,0.5,0.67,0.8], each candidate being the point at the
given fraction along the direct segment displaced by side*offset along the
perpendicular, and returns the first candidate whose two sub-segments are
both collision-free, falling back to the two-waypoint strategy at fractions
0.3 and 0.7 only if no single waypoint succeeds; and whenever the
start-to-end distance is below the epsilon 0.01 it returns no path
immediately. -/
theorem claim_C4 :
    (∀ (s e : Position2D) (mgr : ObjectManager) (ign : Option String),
        findAlternativePath s e mgr ign = plannerSpec s e mgr ign) ∧
    (∀ (s e : Position2D) (mgr : ObjectManager) (ign : Option String),
        Real.sqrt ((e.x - s.x) ^ 2 + (e.y - s.y) ^ 2) < 0.01 →
        findAlternativePath s e mgr ign = none) :=
  ⟨findAlternativePath_eq_plannerSpec, findAlternativePath_none_of_eps⟩

/-- Witness for C4 at a concrete zero-length movement. -/
theorem claim_C4_witness :
    Real.sqrt ((posOrigin.x - posOrigin.x) ^ 2 +
        (posOrigin.y - posOrigin.y) ^ 2) < 0.01 ∧
      findAlternativePath posOrigin posOrigin mgrEmpty none = none := by
  have hd : Real.sqrt ((posOrigin.x - posOrigin.x) ^ 2 +
      (posOrigin.y - posOrigin.y) ^ 2) < 0.01 := by
    norm_num [Real.sqrt_zero]
  exact ⟨hd, claim_C4.2 posOrigin posOrigin mgrEmpty none hd⟩

/-! ## Claim C5: move_to with a blocked direct path and no alternative -/

/-- Claim C5: for every move_to call where the direct path collides and the
path planner finds no alternative, the arm transitions to Idle, the target is
cleared, the returned MovementResult has success = false with a Collision
error, and the arm's position is exactly what it was before the call. -/
theorem claim_C5 (arm : Arm) (target : Position2D) (mgr : ObjectManager)
    (ign : Option String)
    (hc : checkCollision arm.position target mgr ign = true)
    (hp : findAlternativePath arm.position target mgr ign = none) :
    (moveTo arm target mgr ign).1.state = ArmState.idle ∧
    (moveTo arm target mgr ign).1.targetPosition = none ∧
    (moveTo arm target mgr ign).2.success = false ∧
    (moveTo arm target mgr ign).2.error = some ErrorType.collision ∧
    (moveTo arm target mgr ign).1.position = arm.position := by
  rw [moveTo_blocked arm target mgr ign hc hp]
  exact ⟨rfl, rfl, rfl, rfl, rfl⟩

/-- Witness for C5: an obstacle sits at the origin and the arm is asked for a
zero-length move to the origin, so the direct path collides and the planner
bails out at the distance epsilon. -/
theorem claim_C5_witness :
    (checkCollision armIdle.position posOrigin mgrOrigin none = true ∧
     findAlternativePath armIdle.position posOrigin mgrOrigin none = none) ∧
    ((moveTo armIdle posOrigin mgrOrigin none).1.state = ArmState.idle ∧
     (moveTo armIdle posOrigin mgrOrigin none).1.targetPosition = none ∧
     (moveTo armIdle posOrigin mgrOrigin none).2.success = false ∧
     (moveTo armIdle posOrigin mgrOrigin none).2.error =
       some ErrorType.collision ∧
     (moveTo armIdle posOrigin mgrOrigin none).1.position =
       armIdle.position) := by
  have hc : checkCollision armIdle.position posOrigin mgrOrigin none = true := by
    rw [checkCollision_true_iff]
    refine ⟨objOrigin, by simp [mgrOrigin], by simp [objOrigin], rfl, ?_, ?_, ?_, ?_⟩ <;>
      simp [objOrigin, armIdle, posOrigin] <;> norm_num
  have hp : findAlternativePath armIdle.position posOrigin mgrOrigin none = none := by
    apply findAlternativePath_none_of_eps
    simp only [armIdle, posOrigin]
    norm_num [Real.sqrt_zero]
  exact ⟨⟨hc, hp⟩, claim_C5 armIdle posOrigin mgrOrigin none hc hp⟩

/-! ## Claim C8: an obstacle within the buffer of the target defeats the
planner outright -/

theorem ignoreMatches_false_of_ne (ign : Option String) (oid : String)
    (h : ∀ sid, ign = some sid → oid ≠ sid) : ignoreMatches ign oid = false := by
  rw [ignoreMatches_false_iff]
  intro sid hs _
  exact h sid hs

theorem checkCollision_true_of_near (t : Position2D) (mgr : ObjectManager)
    (ign : Option String) (o : Object) (ho : o ∈ mgr.objects)
    (h1 : o.state ≠ ObjectState.held) (h2 : ignoreMatches ign o.id = false)
    (hx1 : t.x - 0.5 ≤ o.position.x) (hx2 : o.position.x ≤ t.x + 0.5)
    (hy1 : t.y - 0.5 ≤ o.position.y) (hy2 : o.position.y ≤ t.y + 0.5) :
    ∀ p : Position2D, checkCollision p t mgr ign = true := by
  intro p
  rw [checkCollision_true_iff]
  refine ⟨o, ho, h1, h2, ?_, ?_, ?_, ?_⟩
  · have h := min_le_right p.x t.x
    linarith
  · have h := le_max_right p.x t.x
    linarith
  · have h := min_le_right p.y t.y
    linarith
  · have h := le_max_right p.y t.y
    linarith

theorem placeLoop_blocked (zone : TargetZone) (oid : String)
    (mgr : ObjectManager) (maxRetries : ℤ) (fc : Option (ℕ → Bool))
    (arm : Arm) (o : Object) (hretry : arm.retryCount ≤ maxRetries)
    (hb : ∀ p : Position2D, checkCollision p (zoneCenter zone) mgr none = true)
    (hget : getObject mgr oid = some o) (hstate : o.state = ObjectState.held) :
    placeLoop zone oid mgr maxRetries fc arm =
      ({ arm with state := ArmState.idle, heldObject := none,
                  targetPosition := none },
       (returnToSource mgr oid).2, zone,
       ⟨false, OperationType.place, some oid, some ErrorType.collision,
        arm.retryCount⟩) := by
  have hmv := moveTo_blocked
    { arm with state := ArmState.moving,
               targetPosition := some (zoneCenter zone) }
    (zoneCenter zone) mgr none (hb _)
    (findAlternativePath_none_of_blocked _ _ _ _ hb)
  rw [placeLoop, dif_pos hretry]
  simp only [hmv, returnToSource_of_held mgr oid o hget hstate]
  simp

/-- Claim C8: (a) whenever the target of a move_to lies within 0.5 units (in
both coordinates, inclusive) of a registry object that is not Held and not
equal to the ignore id, the movement fails with Collision and the position is
unchanged — every planner candidate's final sub-segment ends at the target,
so its expanded box contains the obstacle; (b) in particular, once an object
sits at a zone's center, every subsequent place_object into that zone
(called while Holding a registry-held object, with a non-full zone and a
non-negative retry budget) fails with Collision and leaves the zone count
unchanged, so the zone can never fill beyond the first object this way. -/
theorem claim_C8 :
    (∀ (arm : Arm) (target : Position2D) (mgr : ObjectManager)
        (ign : Option String) (o : Object),
        o ∈ mgr.objects → o.state ≠ ObjectState.held →
        (∀ sid, ign = some sid → o.id ≠ sid) →
        target.x - 0.5 ≤ o.position.x → o.position.x ≤ target.x + 0.5 →
        target.y - 0.5 ≤ o.position.y → o.position.y ≤ target.y + 0.5 →
        (moveTo arm target mgr ign).2.success = false ∧
        (moveTo arm target mgr ign).2.error = some ErrorType.collision ∧
        (moveTo arm target mgr ign).1.position = arm.position) ∧
    (∀ (arm : Arm) (zone : TargetZone) (mgr : ObjectManager)
        (held o obst : Object) (maxRetries : ℤ) (fc : Option (ℕ → Bool)),
        arm.state = ArmState.holding → arm.heldObject = some held →
        getObject mgr held.id = some o → o.state = ObjectState.held →
        zone.isFull = false → 0 ≤ maxRetries →
        obst ∈ mgr.objects → obst.state ≠ ObjectState.held →
        obst.position = zoneCenter zone →
        (placeObject arm zone mgr maxRetries fc).2.2.2.success = false ∧
        (placeObject arm zone mgr maxRetries fc).2.2.2.error =
          some ErrorType.collision ∧
        (placeObject arm zone mgr maxRetries fc).2.2.1 = zone) := by
  constructor
  · intro arm target mgr ign o ho h1 h2 hx1 hx2 hy1 hy2
    have hb := checkCollision_true_of_near target mgr ign o ho h1
      (ignoreMatches_false_of_ne ign o.id h2) hx1 hx2 hy1 hy2
    have hp := findAlternativePath_none_of_blocked arm.position target mgr ign hb
    rw [moveTo_blocked arm target mgr ign (hb arm.position) hp]
    exact ⟨rfl, rfl, rfl⟩
  · intro arm zone mgr held o obst maxRetries fc harm hheld hget hstate hfull
      hmax hobm hobs hobp
    have hb : ∀ p : Position2D,
        checkCollision p (zoneCenter zone) mgr none = true := by
      apply checkCollision_true_of_near (zoneCenter zone) mgr none obst hobm
        hobs rfl <;> rw [hobp] <;> linarith
    unfold placeObject
    rw [if_neg (by simp [harm])]
    rw [hheld]
    dsimp only
    rw [if_neg (by simp [hfull])]
    rw [placeLoop_blocked zone held.id mgr maxRetries fc
      { arm with heldObject := some held, retryCount := 0 } o hmax hb hget
      hstate]
    exact ⟨rfl, rfl, rfl⟩

/-- Witness for C8 at concrete states: a zero-length move into an obstacle at
the origin, and a place into a zone whose center is already occupied. -/
theorem claim_C8_witness :
    ((moveTo armIdle posOrigin mgrOrigin none).2.success = false ∧
     (moveTo armIdle posOrigin mgrOrigin none).2.error =
       some ErrorType.collision ∧
     (moveTo armIdle posOrigin mgrOrigin none).1.position = armIdle.position) ∧
    ((placeObject armHoldingB zoneCap2 mgrZoneBlocked 3 none).2.2.2.success =
       false ∧
     (placeObject armHoldingB zoneCap2 mgrZoneBlocked 3 none).2.2.2.error =
       some ErrorType.collision ∧
     (placeObject armHoldingB zoneCap2 mgrZoneBlocked 3 none).2.2.1 =
       zoneCap2) := by
  constructor
  · apply claim_C8.1 armIdle posOrigin mgrOrigin none objOrigin
      (by simp [mgrOrigin]) (by simp [objOrigin])
      (by intro sid h; cases h) <;>
      simp [objOrigin, posOrigin] <;> norm_num
  · apply claim_C8.2 armHoldingB zoneCap2 mgrZoneBlocked objHeldB objHeldB
      objAtZoneCenter 3 none rfl rfl ?_ rfl ?_ (by norm_num)
      (by simp [mgrZoneBlocked]) (by simp [objAtZoneCenter]) ?_
    · simp [getObject, mgrZoneBlocked, objHeldB, oidHeld]
    · rfl
    · simp [objAtZoneCenter, zoneCenter, zoneCap2, box010]
      norm_num

/-! ## Claim C7: zone-full pre-check -/

/-- Claim C7: a place_object call made in state Holding with a held object
(whose registry record under the same id is Held), targeting a zone that is
full at call time, returns the object to source, sets the arm Idle, clears
the held object and the target, and returns ZoneFull with retry_count 0,
without entering the retry loop or performing any movement: the arm's
position and the zone are unchanged, and the held object's registry record
ends InSource. -/
theorem claim_C7 (arm : Arm) (zone : TargetZone) (mgr : ObjectManager)
    (held o : Object) (maxRetries : ℤ) (fc : Option (ℕ → Bool))
    (harm : arm.state = ArmState.holding) (hheld : arm.heldObject = some held)
    (hget : getObject mgr held.id = some o)
    (hstate : o.state = ObjectState.held) (hfull : zone.isFull = true) :
    placeObject arm zone mgr maxRetries fc =
      ({ arm with heldObject := none, state := ArmState.idle,
                  targetPosition := none },
       (returnToSource mgr held.id).2, zone,
       ⟨false, OperationType.place, some held.id, some ErrorType.zoneFull,
        0⟩) ∧
    (∃ o2, getObject (placeObject arm zone mgr maxRetries fc).2.1 held.id =
        some o2 ∧ o2.state = ObjectState.inSource) ∧
    (placeObject arm zone mgr maxRetries fc).1.position = arm.position := by
  have hrt := returnToSource_of_held mgr held.id o hget hstate
  have h1 : placeObject arm zone mgr maxRetries fc =
      ({ arm with heldObject := none, state := ArmState.idle,
                  targetPosition := none },
       (returnToSource mgr held.id).2, zone,
       ⟨false, OperationType.place, some held.id, some ErrorType.zoneFull,
        0⟩) := by
    unfold placeObject
    rw [if_neg (by simp [harm]), hheld]
    dsimp only
    rw [hfull]
    simp only [hrt]
    simp
  refine ⟨h1, ?_, ?_⟩
  · rw [h1]
    exact (returnToSource_held_state mgr held.id o hget hstate).2
  · rw [h1]

/-- Witness for C7: placing into a capacity-0 zone while holding an object. -/
theorem claim_C7_witness :
    placeObject armHolding zoneCap0 mgrHeld 3 none =
      ({ armHolding with
          heldObject := none, state := ArmState.idle,
          targetPosition := none },
       (returnToSource mgrHeld objHeld0.id).2, zoneCap0,
       ⟨false, OperationType.place, some objHeld0.id, some ErrorType.zoneFull,
        0⟩) ∧
    (∃ o2, getObject (placeObject armHolding zoneCap0 mgrHeld 3 none).2.1
        objHeld0.id = some o2 ∧ o2.state = ObjectState.inSource) ∧
    (placeObject armHolding zoneCap0 mgrHeld 3 none).1.position =
      armHolding.position :=
  claim_C7 armHolding zoneCap0 mgrHeld objHeld0 objHeld0 3 none rfl rfl
    (by simp [getObject, mgrHeld]) rfl rfl

/-! ## Claim C9: reset never touches the registry -/

/-- Claim C9: reset() mutates only the arm's own fields (it returns the
canonical idle arm regardless of the prior arm state) and performs no
registry operation; hence an object whose registry record is Held when the
arm is reset keeps its Held record exactly as it was: it is excluded from
get_available_objects, and a subsequent pick of it from the reset arm fails
with InvalidState, leaving the registry (and so the object's state and
position) unchanged. -/
theorem claim_C9 (mgr : ObjectManager) (o : Object)
    (hget : getObject mgr o.id = some o)
    (hstate : o.state = ObjectState.held) :
    (∀ arm : Arm, resetArm arm =
        ⟨ArmState.idle, ⟨0, 0⟩, none, none, 0⟩) ∧
    o ∉ getAvailableObjects mgr ∧
    (∀ (arm : Arm) (maxRetries : ℤ) (fc : Option (ℕ → Bool)),
        pickObject (resetArm arm) o.id mgr maxRetries fc =
          (resetArm arm, mgr,
           ⟨false, OperationType.pick, some o.id, some ErrorType.invalidState,
            0⟩)) := by
  refine ⟨fun arm => rfl, ?_, ?_⟩
  · simp [getAvailableObjects, List.mem_filter, hstate]
  · intro arm maxRetries fc
    unfold pickObject
    rw [if_neg (by simp [resetArm]), hget]
    dsimp only
    rw [if_pos (by simp [hstate])]

/-- Witness for C9 at a concrete registry holding one Held object. -/
theorem claim_C9_witness :
    objHeld0 ∉ getAvailableObjects mgrHeld ∧
    pickObject (resetArm armHolding) objHeld0.id mgrHeld 3 none =
      (resetArm armHolding, mgrHeld,
       ⟨false, OperationType.pick, some objHeld0.id,
        some ErrorType.invalidState, 0⟩) := by
  have h := claim_C9 mgrHeld objHeld0 (by simp [getObject, mgrHeld]) rfl
  exact ⟨h.2.1, h.2.2 armHolding 3 none⟩

/-! ## Claim C10: zone counts never decrease under the core operations -/

theorem placeLoop_zones_aux (oid : String) (maxRetries : ℤ)
    (fc : Option (ℕ → Bool)) :
    ∀ (n : ℕ) (arm : Arm) (mgr : ObjectManager) (zone : TargetZone),
      (maxRetries + 1 - arm.retryCount).toNat ≤ n →
      zone.currentCount ≤
        (placeLoop zone oid mgr maxRetries fc arm).2.2.1.currentCount ∧
      (placeLoop zone oid mgr maxRetries fc arm).2.1.targetZones =
        mgr.targetZones := by
  intro n
  induction n with
  | zero =>
    intro arm mgr zone hn
    rw [placeLoop, dif_neg (by omega)]
    exact ⟨le_refl _, returnToSource_targetZones mgr oid⟩
  | succ n ih =>
    intro arm mgr zone hn
    by_cases hg : arm.retryCount ≤ maxRetries
    · rw [placeLoop, dif_pos hg]
      dsimp only
      split
      · exact ⟨le_refl _, returnToSource_targetZones mgr oid⟩
      · split
        · split
          · exact ⟨placeInZone_count_mono mgr oid zone,
                   placeInZone_targetZones mgr oid zone⟩
          · split
            · split
              · refine ⟨placeInZone_count_mono mgr oid zone, ?_⟩
                rw [returnToSource_targetZones,
                    placeInZone_targetZones mgr oid zone]
              · refine ⟨le_trans (placeInZone_count_mono mgr oid zone)
                  (ih _ _ _ ?_).1, ?_⟩
                · simp [moveTo_retryCount]
                  omega
                · rw [(ih _ _ _ (by simp [moveTo_retryCount]; omega)).2,
                      returnToSource_targetZones,
                      placeInZone_targetZones mgr oid zone]
            · refine ⟨le_trans (placeInZone_count_mono mgr oid zone)
                (ih _ _ _ ?_).1, ?_⟩
              · simp [moveTo_retryCount]
                omega
              · rw [(ih _ _ _ (by simp [moveTo_retryCount]; omega)).2,
                    placeInZone_targetZones mgr oid zone]
        · split
          · split
            · exact ⟨le_refl _, returnToSource_targetZones mgr oid⟩
            · refine ⟨(ih _ _ _ ?_).1, ?_⟩
              · simp [moveTo_retryCount]
                omega
              · rw [(ih _ _ _ (by simp [moveTo_retryCount]; omega)).2,
                    returnToSource_targetZones]
          · refine ⟨(ih _ _ _ ?_).1, ?_⟩
            · simp [moveTo_retryCount]
              omega
            · rw [(ih _ _ _ (by simp [moveTo_retryCount]; omega)).2]
    · rw [placeLoop, dif_neg hg]
      exact ⟨le_refl _, returnToSource_targetZones mgr oid⟩

theorem pickLoop_mgr_aux (oid : String) (obj : Object) (maxRetries : ℤ)
    (fc : Option (ℕ → Bool)) :
    ∀ (n : ℕ) (arm : Arm) (mgr : ObjectManager),
      (maxRetries + 1 - arm.retryCount).toNat ≤ n →
      ((pickLoop oid obj mgr maxRetries fc arm).2.1 = mgr ∨
       (pickLoop oid obj mgr maxRetries fc arm).2.1 =
         (removeFromSource mgr oid).2) ∧
      ((pickLoop oid obj mgr maxRetries fc arm).2.2.success = false →
        (pickLoop oid obj mgr maxRetries fc arm).2.1 = mgr ∧
        (pickLoop oid obj mgr maxRetries fc arm).1.heldObject =
          arm.heldObject) := by
  intro n
  induction n with
  | zero =>
    intro arm mgr hn
    rw [pickLoop, dif_neg (by omega)]
    exact ⟨Or.inl rfl, fun _ => ⟨rfl, rfl⟩⟩
  | succ n ih =>
    intro arm mgr hn
    by_cases hg : arm.retryCount ≤ maxRetries
    · rw [pickLoop, dif_pos hg]
      dsimp only
      split
      · refine ⟨Or.inl rfl, fun _ => ⟨rfl, ?_⟩⟩
        simp [moveTo_heldObject]
      · split
        · split
          · exact ⟨Or.inr rfl, fun hfalse => absurd hfalse (by simp)⟩
          · rename_i hrm
            have hrm2 : (removeFromSource mgr oid).2 = mgr :=
              removeFromSource_false mgr oid (by simpa using hrm)
            rw [hrm2]
            split
            · refine ⟨Or.inl rfl, fun _ => ⟨rfl, ?_⟩⟩
              simp [moveTo_heldObject]
            · refine ⟨?_, fun hf => ?_⟩
              · exact Or.imp (fun h => h) (fun h => h.trans hrm2)
                  (ih _ _ (by simp [moveTo_retryCount]; omega)).1
              · have h2 := (ih _ _ (by simp [moveTo_retryCount]; omega)).2 hf
                exact ⟨h2.1, h2.2.trans (by simp [moveTo_heldObject])⟩
        · split
          · refine ⟨Or.inl rfl, fun _ => ⟨rfl, ?_⟩⟩
            simp [moveTo_heldObject]
          · refine ⟨(ih _ _ ?_).1, fun hf => ?_⟩
            · simp [moveTo_retryCount]
              omega
            · have h2 := (ih _ _ (by simp [moveTo_retryCount]; omega)).2 hf
              exact ⟨h2.1, h2.2.trans (by simp [moveTo_heldObject])⟩
    · rw [pickLoop, dif_neg hg]
      exact ⟨Or.inl rfl, fun _ => ⟨rfl, rfl⟩⟩

/-- Claim C10: zone counts are monotonically non-decreasing across the core
operations: place_in_zone can only increment the count of the zone it is
given; place_object never decreases the count of its zone and never touches
the registry's zone list; pick_object never touches the registry's zone
list; and the registry transitions invoked by the arm (remove_from_source,
return_to_source) never touch the zone list either — remove_object is never
invoked on any of these paths.  (move_to and reset take no registry
reference at all in the embedding, mirroring that they never mutate it.) -/
theorem claim_C10 :
    (∀ (m : ObjectManager) (oid : String) (z : TargetZone),
        z.currentCount ≤ (placeInZone m oid z).2.2.currentCount) ∧
    (∀ (arm : Arm) (zone : TargetZone) (mgr : ObjectManager) (k : ℤ)
        (fc : Option (ℕ → Bool)),
        zone.currentCount ≤
          (placeObject arm zone mgr k fc).2.2.1.currentCount ∧
        (placeObject arm zone mgr k fc).2.1.targetZones = mgr.targetZones) ∧
    (∀ (arm : Arm) (oid : String) (mgr : ObjectManager) (k : ℤ)
        (fc : Option (ℕ → Bool)),
        (pickObject arm oid mgr k fc).2.1.targetZones = mgr.targetZones) ∧
    (∀ (m : ObjectManager) (oid : String),
        (removeFromSource m oid).2.targetZones = m.targetZones ∧
        (returnToSource m oid).2.targetZones = m.targetZones) := by
  refine ⟨fun m oid z => placeInZone_count_mono m oid z, ?_, ?_,
    fun m oid => ⟨removeFromSource_targetZones m oid,
                  returnToSource_targetZones m oid⟩⟩
  · intro arm zone mgr k fc
    unfold placeObject
    split
    · exact ⟨le_refl _, rfl⟩
    · split
      · exact ⟨le_refl _, rfl⟩
      · dsimp only
        split
        · split
          · exact ⟨le_refl _, returnToSource_targetZones mgr _⟩
          · refine ⟨(placeLoop_zones_aux _ k fc _ _ _ _ (le_refl _)).1,
              ((placeLoop_zones_aux _ k fc _ _ _ _ (le_refl _)).2).trans
                (returnToSource_targetZones mgr _)⟩
        · exact placeLoop_zones_aux _ k fc _ _ _ _ (le_refl _)
  · intro arm oid mgr k fc
    unfold pickObject
    split
    · rfl
    · split
      · rfl
      · split
        · rfl
        · rename_i x2 obj2 heq2 hst2
          have h2 := (pickLoop_mgr_aux oid obj2 k fc _
            { arm with retryCount := 0 } mgr (le_refl _)).1
          cases h2 with
          | inl h => rw [h]
          | inr h => rw [h, removeFromSource_targetZones]

/-! ## Claim C1: failure paths restore the object to source -/

theorem contains_center (z : TargetZone)
    (hbx : z.bounds.min.x ≤ z.bounds.max.x)
    (hby : z.bounds.min.y ≤ z.bounds.max.y) :
    z.bounds.contains (zoneCenter z) = true := by
  simp only [BoundingBox.contains, zoneCenter, decide_eq_true_eq]
  refine ⟨by linarith, by linarith, by linarith, by linarith⟩

theorem placeInZone_true (m : ObjectManager) (oid : String) (z : TargetZone)
    (h : (placeInZone m oid z).1 = true) :
    (placeInZone m oid z).2.1 = updateObject m oid (fun o2 =>
        { o2 with state := ObjectState.inZone, position := zoneCenter z }) ∧
    (placeInZone m oid z).2.2 = { z with currentCount := z.currentCount + 1 } := by
  unfold placeInZone at h ⊢
  cases hg : getObject m oid with
  | none => rw [hg] at h; simp at h
  | some o =>
    rw [hg] at h
    by_cases hs : o.state = ObjectState.held
    · by_cases hf : z.isFull = true
      · simp [hs, hf] at h
      · simp [hs, Bool.of_not_eq_true hf, TargetZone.addObject]
    · simp [hs] at h

theorem placeInZone_false (m : ObjectManager) (oid : String) (z : TargetZone)
    (h : (placeInZone m oid z).1 = false) :
    (placeInZone m oid z).2.1 = m ∧ (placeInZone m oid z).2.2 = z := by
  unfold placeInZone at h ⊢
  cases hg : getObject m oid with
  | none => exact ⟨rfl, rfl⟩
  | some o =>
    rw [hg] at h
    by_cases hs : o.state = ObjectState.held
    · by_cases hf : z.isFull = true
      · simp [hs, hf]
      · simp [hs, Bool.of_not_eq_true hf, TargetZone.addObject] at h
    · simp [hs]

theorem placeLoop_fail_safe (oid : String) (maxRetries : ℤ)
    (fc : Option (ℕ → Bool)) :
    ∀ (n : ℕ) (arm : Arm) (mgr : ObjectManager) (zone : TargetZone)
      (o : Object),
      (maxRetries + 1 - arm.retryCount).toNat ≤ n →
      getObject mgr oid = some o → o.state = ObjectState.held →
      zone.bounds.min.x ≤ zone.bounds.max.x →
      zone.bounds.min.y ≤ zone.bounds.max.y →
      ((placeLoop zone oid mgr maxRetries fc arm).2.2.2.success = false →
        (∃ o2, getObject (placeLoop zone oid mgr maxRetries fc arm).2.1 oid =
            some o2 ∧ o2.state = ObjectState.inSource) ∧
        (placeLoop zone oid mgr maxRetries fc arm).1.state = ArmState.idle ∧
        (placeLoop zone oid mgr maxRetries fc arm).1.heldObject = none) := by
  intro n
  induction n with
  | zero =>
    intro arm mgr zone o hn hget hstate hbx hby
    have hrt := returnToSource_held_state mgr oid o hget hstate
    rw [placeLoop, dif_neg (by omega)]
    dsimp only
    rw [hrt.1]
    intro _
    exact ⟨hrt.2, rfl, rfl⟩
  | succ n ih =>
    intro arm mgr zone o hn hget hstate hbx hby
    have hrt := returnToSource_held_state mgr oid o hget hstate
    by_cases hg : arm.retryCount ≤ maxRetries
    · rw [placeLoop, dif_pos hg]
      dsimp only
      split
      · rw [hrt.1]
        intro _
        exact ⟨hrt.2, rfl, rfl⟩
      · split
        · split
          · exact fun hf => absurd hf (by simp)
          · rename_i hnot
            by_cases hpz : (placeInZone mgr oid zone).1 = true
            · exfalso
              have hpzt := placeInZone_true mgr oid zone hpz
              apply hnot
              refine ⟨hpz, ?_⟩
              rw [hpzt.1, getObject_updateObject mgr oid (fun o2 =>
                { o2 with state := ObjectState.inZone,
                          position := zoneCenter zone }) (fun o2 => rfl), hget]
              exact contains_center zone hbx hby
            · have hpze := placeInZone_false mgr oid zone
                (by simpa using hpz)
              rw [hpze.1, hpze.2]
              split
              · rw [hrt.1]
                intro _
                exact ⟨hrt.2, rfl, rfl⟩
              · exact ih _ _ _ _ (by simp [moveTo_retryCount]; omega) hget
                  hstate hbx hby
        · split
          · rw [hrt.1]
            intro _
            exact ⟨hrt.2, rfl, rfl⟩
          · exact ih _ _ _ _ (by simp [moveTo_retryCount]; omega) hget hstate
              hbx hby
    · rw [placeLoop, dif_neg hg]
      dsimp only
      rw [hrt.1]
      intro _
      exact ⟨hrt.2, rfl, rfl⟩

/-- Claim C1 (amended): for every failed pick_object call made with the arm
Idle and holding nothing, on an object that exists in state InSource, the
target object ends InSource and the arm holds nothing; for every failed
place_object call made with the arm Holding a held object whose registry
record (same id) is Held, into a zone with proper bounds (min ≤ max on both
axes), the previously held object ends InSource, the arm ends Idle, and the
arm holds nothing.  (The claim as frozen quantifies over every failed call
with any error, including InvalidState; that fails on the code — see the
counterexample — so the entry guards' preconditions are added.  The proper-
bounds condition rules out the degenerate-zone retry path the spec itself
flags as an open question, where a post-check failure leaves the object
InZone.) -/
theorem claim_C1_amended :
    (∀ (arm : Arm) (oid : String) (mgr : ObjectManager) (obj : Object)
        (maxRetries : ℤ) (fc : Option (ℕ → Bool)),
        arm.state = ArmState.idle → arm.heldObject = none →
        getObject mgr oid = some obj → obj.state = ObjectState.inSource →
        (pickObject arm oid mgr maxRetries fc).2.2.success = false →
        (∃ o2, getObject (pickObject arm oid mgr maxRetries fc).2.1 oid =
            some o2 ∧ o2.state = ObjectState.inSource) ∧
        (pickObject arm oid mgr maxRetries fc).1.heldObject = none) ∧
    (∀ (arm : Arm) (zone : TargetZone) (mgr : ObjectManager)
        (held o : Object) (maxRetries : ℤ) (fc : Option (ℕ → Bool)),
        arm.state = ArmState.holding → arm.heldObject = some held →
        getObject mgr held.id = some o → o.state = ObjectState.held →
        zone.bounds.min.x ≤ zone.bounds.max.x →
        zone.bounds.min.y ≤ zone.bounds.max.y →
        (placeObject arm zone mgr maxRetries fc).2.2.2.success = false →
        (∃ o2, getObject (placeObject arm zone mgr maxRetries fc).2.1
            held.id = some o2 ∧ o2.state = ObjectState.inSource) ∧
        (placeObject arm zone mgr maxRetries fc).1.state = ArmState.idle ∧
        (placeObject arm zone mgr maxRetries fc).1.heldObject = none) := by
  constructor
  · intro arm oid mgr obj maxRetries fc hidle hheld0 hget hsrc
    unfold pickObject
    rw [if_neg (by simp [hidle]), hget]
    dsimp only
    rw [if_neg (by simp [hsrc])]
    intro hfail
    have h2 := (pickLoop_mgr_aux oid obj maxRetries fc _
      { arm with retryCount := 0 } mgr (le_refl _)).2 hfail
    refine ⟨⟨obj, ?_, hsrc⟩, ?_⟩
    · rw [h2.1, hget]
    · rw [h2.2]
      exact hheld0
  · intro arm zone mgr held o maxRetries fc harm hheld hget hstate hbx hby
    have hrt := returnToSource_held_state mgr held.id o hget hstate
    unfold placeObject
    rw [if_neg (by simp [harm]), hheld]
    dsimp only
    by_cases hf : zone.isFull = true
    · rw [if_pos hf, if_pos hrt.1]
      intro _
      exact ⟨hrt.2, rfl, rfl⟩
    · rw [if_neg (by simp [hf])]
      exact placeLoop_fail_safe held.id maxRetries fc _ _ _ _ o (le_refl _)
        hget hstate hbx hby

/-- Claim C1 as frozen is false on the code: a pick_object call made while
the arm is Holding fails (with InvalidState), yet the arm still holds its
object, and the target object (the held one) ends Held, not InSource. -/
theorem claim_C1_counterexample :
    (pickObject armHolding oid0 mgrHeld 3 none).2.2.success = false ∧
    (pickObject armHolding oid0 mgrHeld 3 none).1.heldObject ≠ none ∧
    ((getObject (pickObject armHolding oid0 mgrHeld 3 none).2.1 oid0).map
        (fun o => o.state)) = some ObjectState.held := by
  have h : pickObject armHolding oid0 mgrHeld 3 none =
      (armHolding, mgrHeld,
       ⟨false, OperationType.pick, some oid0, some ErrorType.invalidState,
        0⟩) := by
    unfold pickObject
    rw [if_pos (by simp [armHolding])]
  rw [h]
  refine ⟨rfl, by simp [armHolding], ?_⟩
  simp [getObject, mgrHeld, objHeld0, oid0]

/-- Witness for the amended C1 at concrete failing calls: a pick with a
negative retry budget fails with retries exhausted; a place with a negative
retry budget likewise fails and returns the object to source. -/
theorem claim_C1_witness :
    (armIdle.state = ArmState.idle ∧ armIdle.heldObject = none ∧
     getObject mgrSrc oid0 = some objSrc ∧
     objSrc.state = ObjectState.inSource ∧
     (pickObject armIdle oid0 mgrSrc (-1) none).2.2.success = false ∧
     ((∃ o2, getObject (pickObject armIdle oid0 mgrSrc (-1) none).2.1 oid0 =
          some o2 ∧ o2.state = ObjectState.inSource) ∧
      (pickObject armIdle oid0 mgrSrc (-1) none).1.heldObject = none)) ∧
    (armHolding.state = ArmState.holding ∧
     armHolding.heldObject = some objHeld0 ∧
     getObject mgrHeld objHeld0.id = some objHeld0 ∧
     objHeld0.state = ObjectState.held ∧
     zoneCap1.bounds.min.x ≤ zoneCap1.bounds.max.x ∧
     zoneCap1.bounds.min.y ≤ zoneCap1.bounds.max.y ∧
     (placeObject armHolding zoneCap1 mgrHeld (-1) none).2.2.2.success =
       false ∧
     ((∃ o2, getObject (placeObject armHolding zoneCap1 mgrHeld (-1)
          none).2.1 objHeld0.id = some o2 ∧
          o2.state = ObjectState.inSource) ∧
      (placeObject armHolding zoneCap1 mgrHeld (-1) none).1.state =
        ArmState.idle ∧
      (placeObject armHolding zoneCap1 mgrHeld (-1) none).1.heldObject =
        none)) := by
  have hget1 : getObject mgrSrc oid0 = some objSrc := by
    simp [getObject, mgrSrc, objSrc, oid0]
  have hrun1 : (pickObject armIdle oid0 mgrSrc (-1) none).2.2.success =
      false := by
    unfold pickObject
    rw [if_neg (by simp [armIdle]), hget1]
    dsimp only
    rw [if_neg (by simp [objSrc])]
    rw [pickLoop, dif_neg (by decide)]
  have hget2 : getObject mgrHeld objHeld0.id = some objHeld0 := by
    simp [getObject, mgrHeld]
  have hrun2 : (placeObject armHolding zoneCap1 mgrHeld (-1)
      none).2.2.2.success = false := by
    unfold placeObject
    rw [if_neg (by simp [armHolding])]
    rw [show armHolding.heldObject = some objHeld0 from rfl]
    dsimp only
    rw [if_neg (by decide)]
    rw [placeLoop, dif_neg (by decide)]
  have hbx : zoneCap1.bounds.min.x ≤ zoneCap1.bounds.max.x := by
    simp [zoneCap1, box010]
  have hby : zoneCap1.bounds.min.y ≤ zoneCap1.bounds.max.y := by
    simp [zoneCap1, box010]
  refine ⟨⟨rfl, rfl, hget1, rfl, hrun1,
    claim_C1_amended.1 armIdle oid0 mgrSrc objSrc (-1) none rfl rfl hget1 rfl
      hrun1⟩,
    ⟨rfl, rfl, hget2, rfl, hbx, hby, hrun2,
    claim_C1_amended.2 armHolding zoneCap1 mgrHeld objHeld0 objHeld0 (-1)
      none rfl rfl hget2 rfl hbx hby hrun2⟩⟩

/-! ## Claim C3: an always-failing pick exhausts max_retries + 1 attempts -/

theorem pickLoop_allFail (oid : String) (obj : Object) (mgr : ObjectManager)
    (maxRetries : ℤ) (f : ℕ → Bool)
    (hcc : ∀ p : Position2D,
      checkCollision p obj.position mgr (some oid) = false)
    (hf : ∀ k : ℕ, f k = true) :
    ∀ (n : ℕ) (arm : Arm),
      (maxRetries + 1 - arm.retryCount).toNat ≤ n →
      0 ≤ arm.retryCount → arm.retryCount ≤ maxRetries →
      pickLoop oid obj mgr maxRetries (some f) arm =
        ({ arm with state := ArmState.idle,
                    position := obj.position,
                    targetPosition := none,
                    retryCount := maxRetries + 1 },
         mgr,
         ⟨false, OperationType.pick, some oid,
          some ErrorType.maxRetriesExceeded, maxRetries + 1⟩) := by
  intro n
  induction n with
  | zero =>
    intro arm hn h0 hle
    exfalso
    omega
  | succ n ih =>
    intro arm hn h0 hle
    rw [pickLoop, dif_pos hle]
    have hmv := moveTo_clear
      { arm with state := ArmState.moving,
                 targetPosition := some obj.position }
      obj.position mgr (some oid) (hcc _)
    simp only [hmv, hf]
    by_cases hdone : arm.retryCount + 1 > maxRetries
    · have heq : arm.retryCount + 1 = maxRetries + 1 := by omega
      rw [heq, if_neg (by simp), if_neg (by simp), if_pos (by omega)]
    · rw [if_neg (by simp), if_neg (by simp), if_neg hdone]
      refine ih _ ?_ ?_ ?_
      · dsimp only
        omega
      · dsimp only
        omega
      · dsimp only
        omega

/-- Claim C3: for every max_retries ≥ 0, a pick_object call from Idle (arm
holding nothing) on an existing InSource object, with every movement
collision-free and a failure predicate that is true on every attempt, fails
with MaxRetriesExceeded and retry_count = max_retries + 1 (so the total
number of attempts is max_retries + 1; in particular max_retries = 3 yields
retry_count = 4), the arm ends Idle, and no object is held. -/
theorem claim_C3 (arm : Arm) (oid : String) (mgr : ObjectManager)
    (obj : Object) (maxRetries : ℤ) (f : ℕ → Bool)
    (hmax : 0 ≤ maxRetries) (hidle : arm.state = ArmState.idle)
    (hheld0 : arm.heldObject = none)
    (hget : getObject mgr oid = some obj)
    (hsrc : obj.state = ObjectState.inSource)
    (hcc : ∀ p : Position2D,
      checkCollision p obj.position mgr (some oid) = false)
    (hf : ∀ k : ℕ, f k = true) :
    (pickObject arm oid mgr maxRetries (some f)).2.2.success = false ∧
    (pickObject arm oid mgr maxRetries (some f)).2.2.error =
      some ErrorType.maxRetriesExceeded ∧
    (pickObject arm oid mgr maxRetries (some f)).2.2.retryCount =
      maxRetries + 1 ∧
    (pickObject arm oid mgr maxRetries (some f)).1.state = ArmState.idle ∧
    (pickObject arm oid mgr maxRetries (some f)).1.heldObject = none := by
  unfold pickObject
  rw [if_neg (by simp [hidle]), hget]
  dsimp only
  rw [if_neg (by simp [hsrc])]
  rw [pickLoop_allFail oid obj mgr maxRetries f hcc hf _
    { arm with retryCount := 0 } (le_refl _) (by norm_num) hmax]
  exact ⟨rfl, rfl, rfl, rfl, hheld0⟩

/-- Witness for C3: always-failing pick with max_retries = 3 on a lone
source object ends with retry_count 4. -/
theorem claim_C3_witness :
    ((0:ℤ) ≤ 3 ∧ armIdle.state = ArmState.idle ∧
     armIdle.heldObject = none ∧ getObject mgrSrc oid0 = some objSrc ∧
     objSrc.state = ObjectState.inSource ∧
     (∀ p : Position2D,
       checkCollision p objSrc.position mgrSrc (some oid0) = false) ∧
     (∀ k : ℕ, fcAlwaysFail k = true)) ∧
    ((pickObject armIdle oid0 mgrSrc 3 (some fcAlwaysFail)).2.2.success =
       false ∧
     (pickObject armIdle oid0 mgrSrc 3 (some fcAlwaysFail)).2.2.error =
       some ErrorType.maxRetriesExceeded ∧
     (pickObject armIdle oid0 mgrSrc 3 (some fcAlwaysFail)).2.2.retryCount =
       4 ∧
     (pickObject armIdle oid0 mgrSrc 3 (some fcAlwaysFail)).1.state =
       ArmState.idle ∧
     (pickObject armIdle oid0 mgrSrc 3 (some fcAlwaysFail)).1.heldObject =
       none) := by
  have hget1 : getObject mgrSrc oid0 = some objSrc := by
    simp [getObject, mgrSrc, objSrc, oid0]
  have hcc : ∀ p : Position2D,
      checkCollision p objSrc.position mgrSrc (some oid0) = false := by
    intro p
    simp [checkCollision, mgrSrc, objSrc, ignoreMatches, oid0]
  have hh := claim_C3 armIdle oid0 mgrSrc objSrc 3 fcAlwaysFail (by norm_num)
    rfl rfl hget1 rfl hcc (fun k => rfl)
  refine ⟨⟨by norm_num, rfl, rfl, hget1, rfl, hcc, fun k => rfl⟩,
    ⟨hh.1, hh.2.1, ?_, hh.2.2.2⟩⟩
  rw [hh.2.2.1]
  norm_num

/-! ## Claim C2: the zone count invariant -/

theorem addObject_capacity (z : TargetZone) :
    z.addObject.2.capacity = z.capacity := by
  unfold TargetZone.addObject
  split <;> rfl

theorem removeObject_capacity (z : TargetZone) :
    z.removeObject.2.capacity = z.capacity := by
  unfold TargetZone.removeObject
  split <;> rfl

theorem placeInZone_capacity (m : ObjectManager) (oid : String)
    (z : TargetZone) : (placeInZone m oid z).2.2.capacity = z.capacity := by
  unfold placeInZone
  cases hg : getObject m oid with
  | none => simp
  | some o =>
    by_cases hs : o.state = ObjectState.held
    · by_cases hf : z.isFull = true
      · simp [hs, hf]
      · simp [hs, Bool.of_not_eq_true hf, TargetZone.addObject]
    · simp [hs]

theorem addObject_inv (z : TargetZone) (h0 : 0 ≤ z.currentCount)
    (h1 : z.currentCount ≤ z.capacity) :
    0 ≤ z.addObject.2.currentCount ∧
      z.addObject.2.currentCount ≤ z.addObject.2.capacity := by
  unfold TargetZone.addObject TargetZone.isFull
  by_cases hf : z.currentCount ≥ z.capacity
  · simp [hf]
    omega
  · simp [hf]
    omega

theorem removeObject_inv (z : TargetZone) (h0 : 0 ≤ z.currentCount)
    (h1 : z.currentCount ≤ z.capacity) :
    0 ≤ z.removeObject.2.currentCount ∧
      z.removeObject.2.currentCount ≤ z.removeObject.2.capacity := by
  unfold TargetZone.removeObject
  by_cases hf : z.currentCount ≤ 0
  · simp [hf]
    omega
  · simp [hf]
    omega

theorem placeInZone_inv (m : ObjectManager) (oid : String) (z : TargetZone)
    (h0 : 0 ≤ z.currentCount) (h1 : z.currentCount ≤ z.capacity) :
    0 ≤ (placeInZone m oid z).2.2.currentCount ∧
      (placeInZone m oid z).2.2.currentCount ≤
        (placeInZone m oid z).2.2.capacity := by
  unfold placeInZone
  cases hg : getObject m oid with
  | none => simp; omega
  | some o =>
    by_cases hs : o.state = ObjectState.held
    · by_cases hf : z.isFull = true
      · simp [hs, hf]
        omega
      · have hf2 : ¬(z.currentCount ≥ z.capacity) := by
          simpa [TargetZone.isFull] using hf
        simp [hs, Bool.of_not_eq_true hf, TargetZone.addObject]
        omega
    · simp [hs]
      omega

theorem zoneReachable_inv (z : TargetZone) (hr : ZoneReachable z) :
    0 ≤ z.capacity →
    0 ≤ z.currentCount ∧ z.currentCount ≤ z.capacity := by
  induction hr with
  | init i b c cv =>
    intro hcap
    exact ⟨le_refl 0, by simpa using hcap⟩
  | add z2 hz ih =>
    intro hcap
    rw [addObject_capacity] at hcap
    exact addObject_inv z2 (ih hcap).1 (ih hcap).2
  | remove z2 hz ih =>
    intro hcap
    rw [removeObject_capacity] at hcap
    exact removeObject_inv z2 (ih hcap).1 (ih hcap).2
  | place m oid z2 hz ih =>
    intro hcap
    rw [placeInZone_capacity] at hcap
    exact placeInZone_inv m oid z2 (ih hcap).1 (ih hcap).2

/-- Claim C2 (amended): for every zone with a non-negative capacity, at every
reachable state (created with current_count = 0 and mutated only through the
registry-mediated transitions add_object, remove_object, and place_in_zone),
0 ≤ current_count ≤ capacity holds; and each of add_object, remove_object
and place_in_zone preserves the invariant unconditionally.  (The claim as
frozen omits "non-negative capacity": TargetZone's capacity is a plain int,
and a zone created with a negative capacity violates 0 ≤ count ≤ capacity
already at creation — see the counterexample.) -/
theorem claim_C2_amended :
    (∀ z : TargetZone, ZoneReachable z → 0 ≤ z.capacity →
        0 ≤ z.currentCount ∧ z.currentCount ≤ z.capacity) ∧
    (∀ z : TargetZone, 0 ≤ z.currentCount → z.currentCount ≤ z.capacity →
        0 ≤ z.addObject.2.currentCount ∧
          z.addObject.2.currentCount ≤ z.addObject.2.capacity) ∧
    (∀ z : TargetZone, 0 ≤ z.currentCount → z.currentCount ≤ z.capacity →
        0 ≤ z.removeObject.2.currentCount ∧
          z.removeObject.2.currentCount ≤ z.removeObject.2.capacity) ∧
    (∀ (m : ObjectManager) (oid : String) (z : TargetZone),
        0 ≤ z.currentCount → z.currentCount ≤ z.capacity →
        0 ≤ (placeInZone m oid z).2.2.currentCount ∧
          (placeInZone m oid z).2.2.currentCount ≤
            (placeInZone m oid z).2.2.capacity) :=
  ⟨zoneReachable_inv, addObject_inv, removeObject_inv, placeInZone_inv⟩

/-- Claim C2 as frozen is false on the code: a zone is created with
capacity -1 and current_count 0 (a reachable state with no transitions at
all), and 0 ≤ current_count ≤ capacity already fails there. -/
theorem claim_C2_counterexample :
    ZoneReachable zoneNegCap ∧
    ¬(0 ≤ zoneNegCap.currentCount ∧
      zoneNegCap.currentCount ≤ zoneNegCap.capacity) := by
  constructor
  · exact ZoneReachable.init _ _ _ _
  · decide

/-- Witness for the amended C2 at a concrete capacity-2 zone. -/
theorem claim_C2_witness :
    (ZoneReachable zoneCap2 ∧ (0:ℤ) ≤ zoneCap2.capacity ∧
     0 ≤ zoneCap2.currentCount ∧ zoneCap2.currentCount ≤ zoneCap2.capacity) ∧
    (0 ≤ (placeInZone mgrHeld oid0 zoneCap2).2.2.currentCount ∧
     (placeInZone mgrHeld oid0 zoneCap2).2.2.currentCount ≤
       (placeInZone mgrHeld oid0 zoneCap2).2.2.capacity) := by
  have hr : ZoneReachable zoneCap2 := ZoneReachable.init _ _ _ _
  have hinv := claim_C2_amended.1 zoneCap2 hr (by decide)
  exact ⟨⟨hr, by decide, hinv⟩,
    claim_C2_amended.2.2.2 mgrHeld oid0 zoneCap2 hinv.1 hinv.2⟩

end RoboSort
